import Mathlib

/-!
Verification of the real-time AI call-notes application (a browser-based
debt-collection call assistant) against its specification.

The development shallowly embeds the core pipeline of the source:
- the rule-based extraction engine (`src/hooks/useTextAnalysis.ts`),
- the session store (`src/store/callStore.ts`),
- the coaching gate and summary orchestrator (`src/services/geminiService.ts`
  composed with `src/components/AgentCoaching.tsx`).

External effects are made explicit: `uuid` and timestamp generation are
threaded as parameters, and the remote AI capability is an oracle argument
(`Option` of the parsed result, `none` meaning the call failed or its
response could not be parsed).  JavaScript strings are modelled as Lean
strings over their character sequences (inputs of interest are ASCII), and
JavaScript numbers used for money as `Rat` (a `NaN` produced by a failed
parse is modelled as `none`, which coincides with the code because every
use of an amount goes through the falsy-coalescing `|| 0` or a truthiness
test, both of which send `NaN` and `undefined` to the same branch).
-/

/-- Apostrophe character, used to build the bilingual keyword strings. -/
def apChar : Char := Char.ofNat 39

/-- Apostrophe as a one-character string. -/
def ap : String := String.mk [apChar]

/-- JavaScript `toLowerCase` restricted to ASCII, as used on transcripts. -/
def jsLower (s : String) : String := String.mk (s.data.map Char.toLower)

/-- Whether `pre` is a prefix of `l`, character by character. -/
def isPrefixL : List Char → List Char → Bool
  | [], _ => true
  | _ :: _, [] => false
  | p :: ps, c :: cs => p == c && isPrefixL ps cs

/-- JavaScript `String.prototype.includes`: substring containment. -/
def includesL (hay needle : List Char) : Bool :=
  match hay with
  | [] => isPrefixL needle []
  | _ :: rest => isPrefixL needle hay || includesL rest needle

/-- `hay.includes(needle)` on strings. -/
def includesS (hay needle : String) : Bool := includesL hay.data needle.data

/-- JavaScript `slice(a, b)` (with non-negative indices, as used in source). -/
def jsSlice (s : String) (a b : Nat) : String :=
  String.mk ((s.data.drop a).take (b - a))

/-- The whitespace class of JavaScript regex `\s`, ASCII fragment. -/
def isSpaceJS (c : Char) : Bool :=
  c == ' ' || c == '\t' || c == '\n' || c == '\r' ||
  c == Char.ofNat 11 || c == Char.ofNat 12

/-- The word-character class of JavaScript regex `\w`. -/
def isWordChar (c : Char) : Bool := c.isAlphanum || c == '_'

/-- Case-insensitively strip the literal `pat` (given lower-cased) from the
front of `cs`, returning the remainder on success. -/
def ciStripL : List Char → List Char → Option (List Char)
  | [], cs => some cs
  | _ :: _, [] => none
  | p :: ps, c :: cs => if c.toLower == p then ciStripL ps cs else none

/-! ### KeywordLexicon (useTextAnalysis.ts lines 6-39)

The five bilingual keyword tables, verbatim from the source. -/

def PROMISE_KEYWORDS : List String :=
  ["promise", "will pay", "commit", "guarantee", "agree to pay",
   "i" ++ ap ++ "ll pay", "going to pay", "can pay",
   "naahidi", "nitakulipa", "nitalipa", "nitafanya", "nakubali kulipa",
   "nitaweza kulipa", "naweza kulipa"]

def OBJECTION_KEYWORDS : List String :=
  ["can" ++ ap ++ "t afford", "don" ++ ap ++ "t have", "lost job",
   "unemployed", "medical", "hospital", "sick", "hardship", "difficult",
   "dispute", "not my debt", "wrong",
   "sina pesa", "siwezi", "nimefukuzwa kazi", "sina kazi", "mgonjwa",
   "hospitali", "ugumu", "siyo deni langu", "si yangu", "nimeshindwa"]

def AGREEMENT_KEYWORDS : List String :=
  ["agree", "deal", "accept", "okay", "fine", "will do", "sounds good",
   "let" ++ ap ++ "s do", "payment plan",
   "sawa", "nakubali", "ndiyo", "tutafanya", "mpango wa malipo",
   "nimekubali", "ni sawa"]

def POSITIVE_KEYWORDS : List String :=
  ["thank", "appreciate", "helpful", "understand", "great", "good",
   "excellent", "wonderful", "happy",
   "asante", "nashukuru", "nzuri", "vizuri", "naelewa", "furaha", "bora"]

def NEGATIVE_KEYWORDS : List String :=
  ["angry", "frustrated", "upset", "unfair", "ridiculous", "terrible",
   "hate", "worst", "awful",
   "hasira", "sijaelewa", "mbaya", "dhuluma", "sichuki", "chuki",
   "vibaya sana"]

/-! ### The amount regex

`AMOUNT_REGEX = (?:KES|Ksh|Kshs?)[\s]*[\d,]+(?:\.\d{2})?|\b\d+(?:,\d{3})*(?:\.\d{2})?\s*(?:shillings?|bob)`
with flags `gi`, embedded as a direct matcher.  Each `matchXxx` function
returns the number of characters consumed at the current position, `none`
when the branch fails there; scanning over all positions follows. -/

/-- Tail `[\s]*[\d,]+(?:\.\d{2})?` of the first alternative: greedy spaces,
then at least one digit-or-comma, then an optional dot with exactly two
digits (nothing follows, so greedy consumption needs no backtracking). -/
def matchAmountTailA (cs : List Char) : Option Nat :=
  let sp := cs.takeWhile isSpaceJS
  let cs1 := cs.drop sp.length
  let dg := cs1.takeWhile (fun c => c.isDigit || c == ',')
  if dg.isEmpty then none
  else
    let cs2 := cs1.drop dg.length
    let dec : Nat :=
      match cs2 with
      | '.' :: a :: b :: _ => if a.isDigit && b.isDigit then 3 else 0
      | _ => 0
    some (sp.length + dg.length + dec)

/-- First alternative `(?:KES|Ksh|Kshs?)[\s]*[\d,]+(?:\.\d{2})?`.  The
ordered alternation tries `KES`, then `Ksh`; when the tail fails after
`Ksh`, the engine backtracks into the third alternative `Kshs?` and retries
with the extra `s` consumed. -/
def matchAmountA (cs : List Char) : Option Nat :=
  match ciStripL "kes".data cs with
  | some rest => (matchAmountTailA rest).map (fun n => 3 + n)
  | none =>
    match ciStripL "ksh".data cs with
    | some rest =>
      match matchAmountTailA rest with
      | some n => some (3 + n)
      | none =>
        match rest with
        | c :: rest2 =>
          if c.toLower == 's' then (matchAmountTailA rest2).map (fun n => 4 + n)
          else none
        | [] => none
    | none => none

/-- `\s*(?:shillings?|bob)` with case-insensitive literals; the trailing
optional `s` is greedy and final, so it is consumed whenever present. -/
def matchAmountUnit (cs : List Char) : Option Nat :=
  let sp := cs.takeWhile isSpaceJS
  let rest := cs.drop sp.length
  match ciStripL "shilling".data rest with
  | some r2 =>
    match r2 with
    | c :: _ => if c.toLower == 's' then some (sp.length + 9) else some (sp.length + 8)
    | [] => some (sp.length + 8)
  | none =>
    match ciStripL "bob".data rest with
    | some _ => some (sp.length + 3)
    | none => none

/-- `(?:\.\d{2})?\s*(?:shillings?|bob)`: greedily try the decimal part
first, falling back to the bare unit when the decimals lead nowhere. -/
def matchAmountTailB (cs : List Char) : Option Nat :=
  let withDec : Option Nat :=
    match cs with
    | '.' :: a :: b :: rest =>
      if a.isDigit && b.isDigit then (matchAmountUnit rest).map (fun n => 3 + n)
      else none
    | _ => none
  match withDec with
  | some n => some n
  | none => matchAmountUnit cs

/-- `(?:,\d{3})*` followed by `matchAmountTailB`, with the regex engine's
greedy repetition-by-repetition backtracking. -/
def matchAmountGroups : List Char → Option Nat
  | ',' :: a :: b :: c :: rest =>
    if a.isDigit && b.isDigit && c.isDigit then
      match matchAmountGroups rest with
      | some n => some (4 + n)
      | none => matchAmountTailB (',' :: a :: b :: c :: rest)
    else matchAmountTailB (',' :: a :: b :: c :: rest)
  | cs => matchAmountTailB cs

/-- Second alternative `\b\d+(?:,\d{3})*(?:\.\d{2})?\s*(?:shillings?|bob)`.
The word boundary holds when the previous character is absent or not a word
character (the alternative starts with a digit).  `\d+` is taken maximally:
shrinking it never helps, since the following pieces cannot start with a
digit. -/
def matchAmountB (pre : Option Char) (cs : List Char) : Option Nat :=
  let boundary : Bool :=
    match pre with
    | none => true
    | some c => !isWordChar c
  if boundary then
    let d := cs.takeWhile Char.isDigit
    if d.isEmpty then none
    else (matchAmountGroups (cs.drop d.length)).map (fun n => d.length + n)
  else none

/-- The whole amount regex at one position: alternative A preferred. -/
def matchAmountAt (pre : Option Char) (cs : List Char) : Option Nat :=
  match matchAmountA cs with
  | some n => some n
  | none => matchAmountB pre cs

/-- Global scan of `text.match(AMOUNT_REGEX)`: leftmost matches, resuming
after each match, fuelled by the input length (every match consumes at
least one character). -/
def amountScan : Nat → Option Char → List Char → List String
  | 0, _, _ => []
  | Nat.succ f, pre, cs =>
    match cs with
    | [] => []
    | c :: rest =>
      match matchAmountAt pre cs with
      | some n =>
        let n1 := max n 1
        String.mk (cs.take n1) :: amountScan f ((cs.take n1).getLast?) (cs.drop n1)
      | none => amountScan f (some c) rest

/-- All matches of the amount regex in `text` (empty list for JS `null`). -/
def amountMatches (text : String) : List String :=
  amountScan text.data.length none text.data

/-! ### Amount parsing

`parseFloat(amounts[0].replace(/[KES|Ksh|Kshs|,\s]/gi, ''))`: the regex
character class strips (case-insensitively) the characters
`K E S | k s h`, commas and whitespace; `parseFloat` then reads a leading
decimal numeral, `NaN` (modelled `none`) when there is none. -/

def isStrippedChar (c : Char) : Bool :=
  let l := c.toLower
  l == 'k' || l == 'e' || l == 's' || l == 'h' || l == '|' || l == ',' ||
  isSpaceJS c

def stripAmountChars (cs : List Char) : List Char :=
  cs.filter (fun c => !isStrippedChar c)

/-- Numeric value of a digit list. -/
def digitsVal (cs : List Char) : Nat :=
  cs.foldl (fun a c => a * 10 + (c.toNat - '0'.toNat)) 0

/-- JavaScript `parseFloat` on the stripped match: leading integer part,
optional dot and fractional digits; `none` models `NaN`. -/
def parseFloatJS (cs : List Char) : Option Rat :=
  let intPart := cs.takeWhile Char.isDigit
  let rest := cs.drop intPart.length
  match rest with
  | '.' :: r2 =>
    let frac := r2.takeWhile Char.isDigit
    if intPart.isEmpty && frac.isEmpty then none
    else some ((digitsVal intPart : Rat) + (digitsVal frac : Rat) / ((10 : Rat) ^ frac.length))
  | _ =>
    if intPart.isEmpty then none
    else some (digitsVal intPart : Rat)

/-- The `extractedAmount` computed by `analyzeText`: parse of the first
amount-regex match, `none` when there is no match or the parse is `NaN`. -/
def extractAmount (text : String) : Option Rat :=
  match (amountMatches text).head? with
  | some m => parseFloatJS (stripAmountChars m.data)
  | none => none

/-! ### The date regex

`DATE_REGEX = (?:by|on|before|after)\s+(?:the\s+)?(\d{1,2}(?:st|nd|rd|th)?|\w+)\s*(?:of\s+)?(\w+)?`
with flags `gi`, embedded as a direct matcher with the engine's greedy
semantics. -/

/-- The group `(\d{1,2}(?:st|nd|rd|th)?|\w+)`: one or two digits with an
optional ordinal suffix, or else a maximal word.  Everything after the
group in the pattern is optional, so its greedy choices are final. -/
def matchDateMain (cs : List Char) : Option Nat :=
  match cs with
  | [] => none
  | c :: _ =>
    if c.isDigit then
      let d := (cs.takeWhile Char.isDigit).take 2
      let rest := cs.drop d.length
      let ord : Nat :=
        match rest with
        | a :: b :: _ =>
          let p := (a.toLower, b.toLower)
          if p == ('s', 't') || p == ('n', 'd') || p == ('r', 'd') ||
             p == ('t', 'h') then 2 else 0
        | _ => 0
      some (d.length + ord)
    else if isWordChar c then some (cs.takeWhile isWordChar).length
    else none

/-- The all-optional tail `\s*(?:of\s+)?(\w+)?`; it always succeeds and
returns the characters consumed. -/
def matchDateTail (cs : List Char) : Nat :=
  let sp := cs.takeWhile isSpaceJS
  let rest := cs.drop sp.length
  let ofPart : Nat :=
    match ciStripL "of".data rest with
    | some r2 =>
      let sp2 := r2.takeWhile isSpaceJS
      if sp2.isEmpty then 0 else 2 + sp2.length
    | none => 0
  let rest2 := rest.drop ofPart
  sp.length + ofPart + (rest2.takeWhile isWordChar).length

/-- `\s+(?:the\s+)?` followed by the main group and tail.  The optional
`the\s+` is tried greedily; if the main group then fails the engine
backtracks and retries without it. -/
def matchDateAfterKw (cs : List Char) : Option Nat :=
  let sp := cs.takeWhile isSpaceJS
  if sp.isEmpty then none
  else
    let rest := cs.drop sp.length
    let withThe : Option Nat :=
      match ciStripL "the".data rest with
      | some r2 =>
        let sp2 := r2.takeWhile isSpaceJS
        if sp2.isEmpty then none
        else
          let r3 := r2.drop sp2.length
          (matchDateMain r3).map
            (fun n => 3 + sp2.length + n + matchDateTail (r3.drop n))
      | none => none
    match withThe with
    | some n => some (sp.length + n)
    | none =>
      (matchDateMain rest).map
        (fun n => sp.length + n + matchDateTail (rest.drop n))

/-- The whole date regex at one position.  The keyword literals
`by, on, before, after` are pairwise incompatible at a given position, so
the ordered alternation commits to the first that matches. -/
def matchDateAt (cs : List Char) : Option Nat :=
  let kw : Option Nat :=
    match ciStripL "by".data cs with
    | some _ => some 2
    | none =>
      match ciStripL "on".data cs with
      | some _ => some 2
      | none =>
        match ciStripL "before".data cs with
        | some _ => some 6
        | none =>
          match ciStripL "after".data cs with
          | some _ => some 5
          | none => none
  match kw with
  | some k => (matchDateAfterKw (cs.drop k)).map (fun n => k + n)
  | none => none

/-- Global scan of `text.match(DATE_REGEX)`. -/
def dateScan : Nat → List Char → List String
  | 0, _ => []
  | Nat.succ _, [] => []
  | Nat.succ f, c :: rest =>
    match matchDateAt (c :: rest) with
    | some n =>
      let n1 := max n 1
      String.mk ((c :: rest).take n1) :: dateScan f ((c :: rest).drop n1)
    | none => dateScan f rest

/-- First match of the date regex, used for a promise's due date. -/
def dateFirstMatch (text : String) : Option String :=
  (dateScan text.data.length text.data).head?

/-! ### Data model (types.ts) -/

inductive Sentiment where
  | positive
  | neutral
  | negative
deriving DecidableEq, Repr

inductive ObjectionType where
  | financial_hardship
  | job_loss
  | medical
  | dispute
  | other
deriving DecidableEq, Repr

inductive Severity where
  | low
  | medium
  | high
deriving DecidableEq, Repr

inductive AgreementType where
  | payment_plan
  | settlement
  | callback
  | documentation
  | other
deriving DecidableEq, Repr

structure Customer where
  name : String
  phone : String
  accountNumber : String
  debtAmount : Nat
deriving DecidableEq, Repr

structure TranscriptEntry where
  id : String
  speaker : String
  text : String
  timestamp : Nat
  isFinal : Bool
deriving DecidableEq, Repr

structure Promise where
  id : String
  amount : Option Rat
  dueDate : Option String
  description : String
  timestamp : Nat
deriving DecidableEq, Repr

structure Objection where
  id : String
  type : ObjectionType
  description : String
  severity : Severity
  timestamp : Nat
deriving DecidableEq, Repr

structure Agreement where
  id : String
  type : AgreementType
  details : String
  timestamp : Nat
deriving DecidableEq, Repr

structure CallExtraction where
  promises : List Promise
  objections : List Objection
  agreements : List Agreement
  sentiment : Sentiment
  sentimentScore : Int
  keyQuotes : List String
  keywords : List String
deriving DecidableEq, Repr

/-- A `Partial<CallExtraction>` delta as produced by one `analyzeText`
pass: `none` models an absent (undefined) field. -/
structure ExtractionDelta where
  promises : Option (List Promise) := none
  objections : Option (List Objection) := none
  agreements : Option (List Agreement) := none
  sentiment : Option Sentiment := none
  sentimentScore : Option Int := none
  keyQuotes : Option (List String) := none
  keywords : Option (List String) := none
deriving DecidableEq, Repr

structure CallSummary where
  id : String
  callId : String
  summaryText : String
  nextActions : List String
  createdAt : Nat
deriving DecidableEq, Repr

inductive CallStatus where
  | active
  | completed
  | cancelled
deriving DecidableEq, Repr

structure Call where
  id : String
  customer : Customer
  startedAt : Nat
  endedAt : Option Nat := none
  duration : Nat
  status : CallStatus
  transcript : List TranscriptEntry
  extraction : CallExtraction
  summary : Option CallSummary := none
  isMuted : Bool
deriving DecidableEq, Repr

structure CallHistoryItem where
  id : String
  customer : Customer
  startedAt : Nat
  endedAt : Nat
  duration : Nat
  sentiment : Sentiment
  promisesCount : Nat
  totalPromisedAmount : Rat
  summary : Option String := none
  fullTranscript : Option String := none
deriving DecidableEq, Repr

inductive Theme where
  | light
  | dark
deriving DecidableEq, Repr

/-- The zustand store state (persisted slice plus the live call). -/
structure CallState where
  currentCall : Option Call
  callHistory : List CallHistoryItem
  theme : Theme
deriving DecidableEq, Repr

/-! ### ExtractionEngine (useTextAnalysis.ts, `analyzeText`)

The `uuidv4()` and `Date.now()` effects are threaded as the `uuid` and
`now` parameters (the source draws a fresh uuid per generated entity;
nothing here depends on their values, so one parameter stands for them). -/

def hasPromiseKeyword (l : String) : Bool :=
  PROMISE_KEYWORDS.any (fun kw => includesS l kw)

def findObjectionKeyword (l : String) : Option String :=
  OBJECTION_KEYWORDS.find? (fun kw => includesS l kw)

/-- The if-chain classifying an objection (lines 82-94 of the source):
job before medical before financial hardship before dispute. -/
def objectionTypeSeverity (l : String) : ObjectionType × Severity :=
  if includesS l "job" || includesS l "unemployed" then (.job_loss, .high)
  else if includesS l "medical" || includesS l "hospital" || includesS l "sick" then
    (.medical, .high)
  else if includesS l "afford" || includesS l "hardship" then
    (.financial_hardship, .medium)
  else if includesS l "dispute" || includesS l "not my" || includesS l "wrong" then
    (.dispute, .high)
  else (.other, .medium)

def hasAgreementKeyword (l : String) : Bool :=
  AGREEMENT_KEYWORDS.any (fun kw => includesS l kw)

def agreementTypeOf (l : String) : AgreementType :=
  if includesS l "payment plan" || includesS l "monthly" then .payment_plan
  else if includesS l "settle" || includesS l "settlement" then .settlement
  else if includesS l "call" || includesS l "callback" then .callback
  else .other

/-- `KEYWORDS.filter(kw => l.includes(kw)).length`: the number of lexicon
entries occurring in `l` (each counted once however often it occurs). -/
def countKeywordHits (l : String) (kws : List String) : Nat :=
  (kws.filter (fun kw => includesS l kw)).length

/-- The sentiment classification from the summed counts (lines 140-151). -/
def sentimentFromCounts (totalPositive totalNegative : Nat) : Sentiment × Int :=
  if totalPositive > totalNegative + 1 then
    (.positive, min 95 (50 + ((totalPositive : Int) - totalNegative) * 15))
  else if totalNegative > totalPositive + 1 then
    (.negative, max 5 (50 - ((totalNegative : Int) - totalPositive) * 15))
  else if totalPositive > 0 || totalNegative > 0 then
    (.neutral, 50 + ((totalPositive : Int) - totalNegative) * 10)
  else (.neutral, 50)

structure AnalysisResult where
  extraction : ExtractionDelta
  hasSignificantContent : Bool
deriving DecidableEq, Repr

def analyzeText (text fullTranscript : String) (uuid : String) (now : Nat) :
    AnalysisResult :=
  let lowerText := jsLower text
  let amounts := amountMatches text
  let extractedAmount := extractAmount text
  let hasPromise := hasPromiseKeyword lowerText
  let promises : Option (List Promise) :=
    if hasPromise then
      some [{ id := uuid, amount := extractedAmount, dueDate := dateFirstMatch text,
              description := jsSlice text 0 100, timestamp := now }]
    else none
  let objections : Option (List Objection) :=
    match findObjectionKeyword lowerText with
    | some _ =>
      let ts := objectionTypeSeverity lowerText
      some [{ id := uuid, type := ts.1, description := jsSlice text 0 100,
              severity := ts.2, timestamp := now }]
    | none => none
  let hasAgreement := hasAgreementKeyword lowerText
  let agreements : Option (List Agreement) :=
    if hasAgreement && text.length > 20 then
      some [{ id := uuid, type := agreementTypeOf lowerText,
              details := jsSlice text 0 100, timestamp := now }]
    else none
  let fullLower := jsLower fullTranscript
  let totalPositive :=
    countKeywordHits lowerText POSITIVE_KEYWORDS +
    countKeywordHits fullLower POSITIVE_KEYWORDS
  let totalNegative :=
    countKeywordHits lowerText NEGATIVE_KEYWORDS +
    countKeywordHits fullLower NEGATIVE_KEYWORDS
  let sent := sentimentFromCounts totalPositive totalNegative
  let hasSignificantContent :=
    hasPromise || (findObjectionKeyword lowerText).isSome ||
    (hasAgreement && text.length > 20)
  let keyQuotes : Option (List String) :=
    if text.length > 30 && (hasPromise || hasAgreement || hasSignificantContent) then
      some [jsSlice text 0 150]
    else none
  { extraction :=
      { promises := promises, objections := objections, agreements := agreements,
        sentiment := some sent.1, sentimentScore := some sent.2,
        keyQuotes := keyQuotes, keywords := some amounts },
    hasSignificantContent := hasSignificantContent }

/-! ### SessionState (callStore.ts) -/

def initialExtraction : CallExtraction :=
  { promises := [], objections := [], agreements := [], sentiment := .neutral,
    sentimentScore := 50, keyQuotes := [], keywords := [] }

/-- `startCall` (lines 45-57): constructs the fresh call and installs it as
`currentCall`, with no check of the previous state. -/
def startCall (customer : Customer) (uuid : String) (now : Nat) (s : CallState) :
    CallState :=
  let newCall : Call :=
    { id := uuid, customer := customer, startedAt := now, endedAt := none,
      duration := 0, status := .active, transcript := [],
      extraction := initialExtraction, summary := none, isMuted := false }
  { s with currentCall := some newCall }

def cancelCall (s : CallState) : CallState := { s with currentCall := none }

def updateCallDuration (duration : Nat) (s : CallState) : CallState :=
  { s with currentCall := s.currentCall.map (fun c => { c with duration := duration }) }

/-- Insertion-ordered deduplication: `[...new Set(l)]`. -/
def dedupFirst (l : List String) : List String :=
  l.foldl (fun acc x => if acc.contains x then acc else acc ++ [x]) []

/-- The merge inside `updateExtraction` (lines 216-234): concatenation for
the four list fields when the delta carries them (a present JS array is
always truthy, even empty), set-union with insertion order for keywords,
and nullish-coalescing replacement for the sentiment fields. -/
def mergeExtraction (cur : CallExtraction) (d : ExtractionDelta) : CallExtraction :=
  { promises := match d.promises with
      | some ps => cur.promises ++ ps
      | none => cur.promises,
    objections := match d.objections with
      | some os => cur.objections ++ os
      | none => cur.objections,
    agreements := match d.agreements with
      | some ags => cur.agreements ++ ags
      | none => cur.agreements,
    sentiment := d.sentiment.getD cur.sentiment,
    sentimentScore := d.sentimentScore.getD cur.sentimentScore,
    keyQuotes := match d.keyQuotes with
      | some qs => cur.keyQuotes ++ qs
      | none => cur.keyQuotes,
    keywords := match d.keywords with
      | some ks => dedupFirst (cur.keywords ++ ks)
      | none => cur.keywords }

def updateExtraction (d : ExtractionDelta) (s : CallState) : CallState :=
  match s.currentCall with
  | none => s
  | some c =>
    { s with currentCall := some { c with extraction := mergeExtraction c.extraction d } }

/-- `p.amount || 0`: `undefined`, `NaN` (both modelled `none`) and `0` all
coalesce to `0`. -/
def jsOr0 (a : Option Rat) : Rat := a.getD 0

/-- `promises.reduce((sum, p) => sum + (p.amount || 0), 0)`. -/
def promisesReduceTotal (ps : List Promise) : Rat :=
  ps.foldl (fun sum p => sum + jsOr0 p.amount) 0

/-! ### Summary generation (callStore.ts lines 292-434) -/

/-- Comma grouping of a reversed digit list. -/
def commaGroupRev : List Char → List Char
  | a :: b :: c :: d :: rest => a :: b :: c :: ',' :: commaGroupRev (d :: rest)
  | l => l

/-- `Intl.NumberFormat(en-KE).format` on a natural number. -/
def formatKESNat (n : Nat) : String :=
  String.mk ((commaGroupRev (toString n).data.reverse).reverse)

/-- `Intl.NumberFormat(en-KE).format` / `toLocaleString` on the amounts the
pipeline can produce (non-negative, at most two fraction digits; a trailing
zero fraction digit is dropped, as the formatter does). -/
def formatKESRat (q : Rat) : String :=
  let cents : Int := (q * 100).floor
  let ip := formatKESNat (cents / 100).toNat
  let fr := (cents % 100).toNat
  if fr == 0 then ip
  else if fr % 10 == 0 then ip ++ "." ++ toString (fr / 10)
  else if fr < 10 then ip ++ ".0" ++ toString fr
  else ip ++ "." ++ toString fr

def formatDuration (seconds : Nat) : String :=
  let mins := seconds / 60
  let secs := seconds % 60
  if mins == 0 then toString secs ++ " seconds"
  else
    toString mins ++ " minute" ++ (if mins > 1 then "s" else "") ++ " " ++
    toString secs ++ " second" ++ (if secs != 1 then "s" else "")

/-- `o.type.replace(underscore, space)` for objection types. -/
def objectionTypeName : ObjectionType → String
  | .financial_hardship => "financial hardship"
  | .job_loss => "job loss"
  | .medical => "medical"
  | .dispute => "dispute"
  | .other => "other"

/-- `a.type.replace(underscore, space)` for agreement types. -/
def agreementTypeName : AgreementType → String
  | .payment_plan => "payment plan"
  | .settlement => "settlement"
  | .callback => "callback"
  | .documentation => "documentation"
  | .other => "other"

/-- `generateContextAwareNextActions` (lines 349-427). -/
def generateContextAwareNextActions (call : Call) : List String :=
  let fullTranscript := jsLower (String.intercalate " " (call.transcript.map (fun t => t.text)))
  let promiseActs : List String :=
    if call.extraction.promises.length > 0 then
      let totalAmount := promisesReduceTotal call.extraction.promises
      (if totalAmount > 0 then
        ["Monitor payment of KES " ++ formatKESRat totalAmount ++ " from " ++
         call.customer.name]
       else []) ++
      (match call.extraction.promises with
       | p :: _ =>
         match p.dueDate with
         | some d => ["Set reminder for payment due " ++ d]
         | none => ["Confirm payment date with customer via SMS"]
       | [] => [])
    else []
  let mpesaActs : List String :=
    if includesS fullTranscript "m-pesa" || includesS fullTranscript "mpesa" then
      ["Verify M-Pesa payment receipt upon receiving"]
    else []
  let planActs : List String :=
    if call.extraction.agreements.any (fun a => a.type == .payment_plan) ||
       includesS fullTranscript "payment plan" ||
       includesS fullTranscript "installment" then
      ["Prepare payment plan documentation and send to customer"]
    else []
  let callbackActs : List String :=
    if call.extraction.agreements.any (fun a => a.type == .callback) ||
       includesS fullTranscript "call back" || includesS fullTranscript "call me" then
      ["Schedule follow-up call as agreed with customer"]
    else []
  let hardshipActs : List String :=
    if call.extraction.objections.any
        (fun o => o.type == .job_loss || o.type == .financial_hardship) then
      ["Review account for hardship assistance options",
       "Send information about flexible payment programs"]
    else []
  let medicalActs : List String :=
    if call.extraction.objections.any (fun o => o.type == .medical) then
      ["Flag account for medical hardship review"]
    else []
  let disputeActs : List String :=
    if call.extraction.objections.any (fun o => o.type == .dispute) then
      ["Escalate account dispute to supervisor for investigation",
       "Send account statement and transaction history to customer"]
    else []
  let docActs : List String :=
    if includesS fullTranscript "statement" || includesS fullTranscript "document" then
      ["Email account statement to customer"]
    else []
  let negActs : List String :=
    if call.extraction.sentiment == .negative then
      ["Consider supervisor follow-up call to address concerns"]
    else []
  let actions := promiseActs ++ mpesaActs ++ planActs ++ callbackActs ++
    hardshipActs ++ medicalActs ++ disputeActs ++ docActs ++ negActs
  let actions :=
    if actions.isEmpty then
      if fullTranscript.length > 50 then
        ["Follow up with " ++ call.customer.name ++ " within 7 days",
         "Send account reminder via SMS"]
      else
        ["Attempt callback - conversation was brief",
         "Review account for alternative contact methods"]
    else actions
  actions.take 5

def sentimentToneText : Sentiment → String
  | .positive => "The conversation was cooperative and constructive"
  | .neutral => "The conversation maintained a neutral tone"
  | .negative => "The conversation included some concerns or resistance"

/-- `generateBasicCallSummary` (lines 293-346). -/
def generateBasicCallSummary (call : Call) (customSummary : Option String)
    (uuid : String) (now : Nat) : CallSummary :=
  let parts : List String :=
    match customSummary with
    | some cs => [cs]
    | none =>
      let opening :=
        "Call with " ++ call.customer.name ++ " (Account: " ++
        call.customer.accountNumber ++ ") lasted " ++
        formatDuration call.duration ++ "."
      let sentimentPart := sentimentToneText call.extraction.sentiment ++ "."
      let objectionPart : List String :=
        if call.extraction.objections.length > 0 then
          ["Issues raised: " ++
           String.intercalate ", "
             (dedupFirst (call.extraction.objections.map
               (fun o => objectionTypeName o.type))) ++ "."]
        else []
      let promisePart : List String :=
        if call.extraction.promises.length > 0 then
          let totalAmount := promisesReduceTotal call.extraction.promises
          if totalAmount > 0 then
            ["Payment commitment: KES " ++ formatKESRat totalAmount ++ "."]
          else []
        else []
      let agreementPart : List String :=
        if call.extraction.agreements.length > 0 then
          ["Agreements: " ++
           String.intercalate ", "
             (dedupFirst (call.extraction.agreements.map
               (fun a => agreementTypeName a.type))) ++ "."]
        else []
      [opening, sentimentPart] ++ objectionPart ++ promisePart ++ agreementPart
  { id := uuid, callId := call.id, summaryText := String.intercalate " " parts,
    nextActions := generateContextAwareNextActions call, createdAt := now }

/-- `endCall` (lines 60-98): no-op when no call is current; otherwise marks
the call completed, attaches the basic summary and prepends the derived
history item. -/
def endCall (summaryText : Option String) (uuid : String) (now : Nat)
    (s : CallState) : CallState :=
  match s.currentCall with
  | none => s
  | some c =>
    let endedCall : Call := { c with status := .completed, endedAt := some now }
    let summary := generateBasicCallSummary endedCall summaryText uuid now
    let endedCall2 : Call := { endedCall with summary := some summary }
    let fullTranscript := String.intercalate " " (endedCall2.transcript.map (fun t => t.text))
    let historyItem : CallHistoryItem :=
      { id := endedCall2.id, customer := endedCall2.customer,
        startedAt := endedCall2.startedAt, endedAt := now,
        duration := endedCall2.duration,
        sentiment := endedCall2.extraction.sentiment,
        promisesCount := endedCall2.extraction.promises.length,
        totalPromisedAmount := promisesReduceTotal endedCall2.extraction.promises,
        summary := some summary.summaryText, fullTranscript := some fullTranscript }
    { s with currentCall := some endedCall2,
             callHistory := historyItem :: s.callHistory }

/-! ### SummaryOrchestrator (geminiService.ts lines 310-477)

The remote call plus JSON decode is the oracle `Option AIParsedSummary`:
`none` is a thrown error or unparseable response, and inside a parsed
response each `Option` field is `none` when absent or falsy.  The pair's
second component records whether the remote AI call was issued. -/

structure ExtractionContext where
  promises : List Promise
  objections : List Objection
  agreements : List Agreement
  sentiment : Sentiment
deriving DecidableEq, Repr

structure AIParsedSummary where
  summary : Option String
  nextActions : Option (List String)
deriving DecidableEq, Repr

structure SummaryResult where
  summary : String
  nextActions : List String
deriving DecidableEq, Repr

/-- `generateFallbackNextActions` (lines 390-433). -/
def generateFallbackNextActions (customerName : String) (debtAmount : Nat)
    (ex : ExtractionContext) : List String :=
  let promiseActs : List String :=
    match ex.promises with
    | p :: _ =>
      (match p.amount with
       | some amt =>
         if amt != 0 then
           ["Monitor KES " ++ formatKESRat amt ++ " payment from " ++ customerName]
         else ["Follow up on payment commitment from " ++ customerName]
       | none => ["Follow up on payment commitment from " ++ customerName]) ++
      ["Send M-Pesa payment details via SMS"]
    | [] => []
  let hardshipActs : List String :=
    if ex.objections.any
        (fun o => o.type == .financial_hardship || o.type == .job_loss) then
      ["Review account for hardship assistance program eligibility"]
    else []
  let disputeActs : List String :=
    if ex.objections.any (fun o => o.type == .dispute) then
      ["Escalate account dispute to supervisor for investigation"]
    else []
  let planActs : List String :=
    if ex.agreements.any (fun a => a.type == .payment_plan) then
      ["Prepare payment plan documentation and send to customer"]
    else []
  let callbackActs : List String :=
    if ex.agreements.any (fun a => a.type == .callback) then
      ["Schedule callback as agreed with customer"]
    else []
  let negActs : List String :=
    if ex.sentiment == .negative then
      ["Consider assigning senior agent for follow-up due to customer concerns"]
    else []
  let actions := promiseActs ++ hardshipActs ++ disputeActs ++ planActs ++
    callbackActs ++ negActs
  let actions :=
    if actions.isEmpty then
      ["Schedule follow-up call with " ++ customerName ++ " within 5 business days",
       "Send account statement showing KES " ++ formatKESNat debtAmount ++ " balance"]
    else actions
  actions.take 5

def sentimentClosingText : Sentiment → String
  | .positive => "Call ended on a positive note with good cooperation."
  | .neutral => "Customer remained neutral throughout the conversation."
  | .negative => "Customer expressed concerns that may need follow-up."

/-- `generateFallbackSummary` (lines 435-477); the transcript parameter is
unused there as well. -/
def generateFallbackSummary (customerName : String) (debtAmount : Nat)
    (_tr : String) (ex : ExtractionContext) : SummaryResult :=
  let opening :=
    "Call with " ++ customerName ++ " regarding outstanding balance of KES " ++
    formatKESNat debtAmount ++ "."
  let middle : List String :=
    if ex.promises.length > 0 then
      let totalAmount := promisesReduceTotal ex.promises
      if totalAmount > 0 then
        ["Customer committed to pay KES " ++ formatKESRat totalAmount ++ "."]
      else ["Customer indicated willingness to make payment."]
    else if ex.objections.length > 0 then
      let types := ex.objections.map (fun o => o.type)
      if types.contains .financial_hardship then
        ["Customer expressed financial difficulties and may need flexible payment options."]
      else if types.contains .job_loss then
        ["Customer mentioned job loss situation."]
      else if types.contains .dispute then
        ["Customer disputed the debt and requested verification."]
      else []
    else ["Discussion focused on account status and payment options."]
  let parts := [opening] ++ middle ++ [sentimentClosingText ex.sentiment]
  { summary := String.intercalate " " (parts.filter (fun p => p != "")),
    nextActions := generateFallbackNextActions customerName debtAmount ex }

/-- `generateAISummary` (lines 311-388).  `!transcript || transcript.length
< 10` is equivalent to `transcript.length < 10` since the empty string has
length `0`.  The boolean result records whether the remote call was made;
the internal try/catch resolves every failure to the fallback, so the
function models a total computation. -/
def generateAISummary (transcript : String) (customerName : String)
    (debtAmount : Nat) (_duration : Nat) (ex : ExtractionContext)
    (oracle : Option AIParsedSummary) : SummaryResult × Bool :=
  if transcript.length < 10 then
    ({ summary := "Session completed with minimal conversation.",
       nextActions := ["Schedule follow-up call", "Review account status"] }, false)
  else
    match oracle with
    | some parsed =>
      ({ summary := parsed.summary.getD "Call completed.",
         nextActions :=
           parsed.nextActions.getD
             (generateFallbackNextActions customerName debtAmount ex) }, true)
    | none => (generateFallbackSummary customerName debtAmount transcript ex, true)

/-- `endCallWithAI` (lines 101-166).  `generateAISummary` never rejects (it
catches internally and falls back), so the catch branch of the source that
would re-dispatch to `endCall` is unreachable and the success path is the
whole behaviour. -/
def endCallWithAI (oracle : Option AIParsedSummary) (uuid : String) (now : Nat)
    (s : CallState) : CallState :=
  match s.currentCall with
  | none => s
  | some c =>
    let endedCall : Call := { c with status := .completed, endedAt := some now }
    let fullTranscript := String.intercalate " " (endedCall.transcript.map (fun t => t.text))
    let aiResult :=
      (generateAISummary fullTranscript endedCall.customer.name
        endedCall.customer.debtAmount endedCall.duration
        { promises := endedCall.extraction.promises,
          objections := endedCall.extraction.objections,
          agreements := endedCall.extraction.agreements,
          sentiment := endedCall.extraction.sentiment } oracle).1
    let summary : CallSummary :=
      { id := uuid, callId := endedCall.id, summaryText := aiResult.summary,
        nextActions := aiResult.nextActions, createdAt := now }
    let endedCall2 : Call := { endedCall with summary := some summary }
    let historyItem : CallHistoryItem :=
      { id := endedCall2.id, customer := endedCall2.customer,
        startedAt := endedCall2.startedAt, endedAt := now,
        duration := endedCall2.duration,
        sentiment := endedCall2.extraction.sentiment,
        promisesCount := endedCall2.extraction.promises.length,
        totalPromisedAmount := promisesReduceTotal endedCall2.extraction.promises,
        summary := some summary.summaryText, fullTranscript := some fullTranscript }
    { s with currentCall := some endedCall2,
             callHistory := historyItem :: s.callHistory }

/-! ### CoachingGate (geminiService.ts lines 25-308 with AgentCoaching.tsx)

The module-level cache (`lastAnalyzedLength`, `lastSuggestions`,
`isProcessing`) is threaded as an explicit `CoachingCache` value, and the
remote call plus JSON decode is an oracle (`none` = thrown error or
unparseable response).  Each gate function also reports whether the remote
Gemini call was issued. -/

inductive SuggestionType where
  | de_escalation
  | empathy
  | objection_handling
  | closing
  | rapport
  | verification
  | general
deriving DecidableEq, Repr

inductive SuggestionPriority where
  | urgent
  | important
  | normal
deriving DecidableEq, Repr

structure CoachingSuggestion where
  id : String
  type : SuggestionType
  priority : SuggestionPriority
  title : String
  titleSw : String
  description : String
  suggestedPhrases : List String
  suggestedPhrasesSw : List String
deriving DecidableEq, Repr

inductive Lang where
  | enKE
  | swKE
deriving DecidableEq, Repr

structure ConversationContext where
  customerName : String
  debtAmount : Nat
  transcript : String
  lastStatement : String
  detectedSentiment : Sentiment
  language : Lang
deriving DecidableEq, Repr

structure CoachingCache where
  lastAnalyzedLength : Nat
  lastSuggestions : List CoachingSuggestion
  isProcessing : Bool
deriving DecidableEq, Repr

/-- `resetCoachingCache` (lines 479-484). -/
def resetCoachingCache : CoachingCache :=
  { lastAnalyzedLength := 0, lastSuggestions := [], isProcessing := false }

/-- A literal-alternation regex `test` on the already lower-cased
transcript (none of the fallback regexes uses anchors or classes). -/
def anyIncluded (l : String) (pats : List String) : Bool :=
  pats.any (fun p => includesS l p)

/-- `getFallbackSuggestions` (lines 169-308). -/
def getFallbackSuggestions (ctx : ConversationContext) : List CoachingSuggestion :=
  let lowerTranscript := jsLower ctx.transcript
  let deescalate : List CoachingSuggestion :=
    if ctx.detectedSentiment == .negative ||
       anyIncluded lowerTranscript
         ["angry", "frustrated", "upset", "ridiculous", "terrible", "hate",
          "hasira", "chuki"] then
      [{ id := "fallback-deescalate", type := .de_escalation, priority := .urgent,
         title := "🚨 Calm the Situation", titleSw := "🚨 Tuliza Hali",
         description := "Customer seems upset. Use calming language and acknowledge their feelings.",
         suggestedPhrases :=
           ["I completely understand your frustration, and I apologize for any inconvenience.",
            "Let me see what I can do to help resolve this for you today.",
            "Your concerns are absolutely valid. Let" ++ ap ++ "s work through this together."],
         suggestedPhrasesSw :=
           ["Naelewa kabisa wasiwasi wako, naomba msamaha kwa usumbufu wowote.",
            "Wacha nione ninachoweza kufanya kukusaidia leo.",
            "Wasiwasi wako ni halali. Tufanye kazi pamoja."] }]
    else []
  let hardship : List CoachingSuggestion :=
    if anyIncluded lowerTranscript
        ["no money", "can" ++ ap ++ "t afford", "struggling", "broke",
         "sina pesa", "hali ngumu", "shida"] then
      [{ id := "fallback-hardship", type := .empathy, priority := .important,
         title := "💚 Show Empathy for Hardship", titleSw := "💚 Onyesha Huruma",
         description := "Customer mentioned financial difficulties. Offer understanding and flexible options.",
         suggestedPhrases :=
           ["I understand times are tough. We have flexible payment plans available.",
            "Would a smaller monthly payment work better for your situation?",
            "We want to help you through this difficult time."],
         suggestedPhrasesSw :=
           ["Naelewa wakati ni mgumu. Tuna mipango ya malipo inayonyumbulika.",
            "Je, malipo madogo ya kila mwezi yangekufaa zaidi?",
            "Tunataka kukusaidia kupitia wakati huu mgumu."] }]
    else []
  let jobloss : List CoachingSuggestion :=
    if anyIncluded lowerTranscript
        ["lost job", "no job", "fired", "unemployed", "sina kazi",
         "nimefukuzwa", "kupoteza kazi"] then
      [{ id := "fallback-jobloss", type := .empathy, priority := .important,
         title := "💼 Acknowledge Job Loss", titleSw := "💼 Kubali Kupoteza Kazi",
         description := "Customer mentioned unemployment. Show empathy and offer hardship programs.",
         suggestedPhrases :=
           ["I" ++ ap ++ "m sorry to hear about your job situation. That must be really stressful.",
            "We have a hardship program that might help. Can I tell you about it?",
            "Let" ++ ap ++ "s find a solution that works while you get back on your feet."],
         suggestedPhrasesSw :=
           ["Pole sana kusikia kuhusu hali yako ya kazi. Lazima ni vigumu.",
            "Tuna mpango wa msaada ambao unaweza kusaidia. Nikueleze?",
            "Tupate suluhisho linaloufaa wakati unajirekebisha."] }]
    else []
  let closing : List CoachingSuggestion :=
    if anyIncluded lowerTranscript
        ["will pay", "i" ++ ap ++ "ll pay", "promise", "nitalipa",
         "nitakulipa", "ahadi", "nakubali"] then
      [{ id := "fallback-closing", type := .closing, priority := .important,
         title := "✅ Confirm the Commitment", titleSw := "✅ Thibitisha Ahadi",
         description := "Customer is willing to pay. Confirm the details and secure the commitment.",
         suggestedPhrases :=
           ["Great! Just to confirm, you" ++ ap ++ "ll pay the amount by what date?",
            "Shall I send you the M-Pesa Paybill details right now?",
            "I" ++ ap ++ "ll note this commitment in your account. Thank you!"],
         suggestedPhrasesSw :=
           ["Vizuri! Kwa kuthibitisha, utalipa kiasi hicho tarehe gani?",
            "Nikutumie maelezo ya M-Pesa Paybill sasa hivi?",
            "Nitaandika ahadi hii kwenye akaunti yako. Asante!"] }]
    else []
  let mpesa : List CoachingSuggestion :=
    if anyIncluded lowerTranscript ["m-pesa", "mpesa", "lipa", "transfer", "paybill"] then
      [{ id := "fallback-mpesa", type := .verification, priority := .normal,
         title := "📱 Verify M-Pesa Details", titleSw := "📱 Thibitisha M-Pesa",
         description := "M-Pesa mentioned. Ensure payment details are clear.",
         suggestedPhrases :=
           ["Our M-Pesa Paybill number is XXXXXX. Account number is your phone number.",
            "Please send the confirmation message once you" ++ ap ++ "ve made the payment.",
            "I can wait while you make the transfer if you" ++ ap ++ "d like."],
         suggestedPhrasesSw :=
           ["Nambari yetu ya M-Pesa Paybill ni XXXXXX. Nambari ya akaunti ni nambari yako ya simu.",
            "Tafadhali tuma ujumbe wa kuthibitisha ukimaliza kulipa.",
            "Ninaweza kusubiri unapo fanya uhamisho."] }]
    else []
  let suggestions := deescalate ++ hardship ++ jobloss ++ closing ++ mpesa
  if suggestions.isEmpty then
    [{ id := "fallback-default", type := .rapport, priority := .normal,
       title := "🤝 Build Connection", titleSw := "🤝 Jenga Uhusiano",
       description := "Start with empathy and understand the customer" ++ ap ++ "s situation.",
       suggestedPhrases :=
         ["How are you doing today? I hope I" ++ ap ++ "m not catching you at a bad time.",
          "I" ++ ap ++ "m here to help find a solution that works for both of us.",
          "Can you tell me a bit about what" ++ ap ++ "s been going on?"],
       suggestedPhrasesSw :=
         ["Habari yako leo? Natumai sijakupata wakati mbaya.",
          "Niko hapa kusaidia kupata suluhisho linalofaa sisi sote.",
          "Unaweza kunieleza kidogo kuhusu kinachotokea?"] }]
  else suggestions

/-- `getAICoachingSuggestions` (lines 84-166): single-flight guard, 15
character content floor, 60 character dirty-check against the module
cache, then the remote call; success and fallback both update the cache.
Result: (returned suggestions, new cache, whether the remote call was
issued). -/
def getAICoachingSuggestions (cache : CoachingCache) (ctx : ConversationContext)
    (oracle : Option (List CoachingSuggestion)) :
    List CoachingSuggestion × CoachingCache × Bool :=
  if cache.isProcessing then (cache.lastSuggestions, cache, false)
  else if ctx.transcript.length < 15 then ([], cache, false)
  else if (ctx.transcript.length : Int) - (cache.lastAnalyzedLength : Int) < 60 then
    (cache.lastSuggestions, cache, false)
  else
    match oracle with
    | some suggs =>
      (suggs, { lastAnalyzedLength := ctx.transcript.length,
                lastSuggestions := suggs, isProcessing := false }, true)
    | none =>
      let fallback := getFallbackSuggestions ctx
      (fallback, { lastAnalyzedLength := ctx.transcript.length,
                   lastSuggestions := fallback, isProcessing := false }, true)

/-! ### AgentCoaching component gate (AgentCoaching.tsx lines 47-100) -/

/-- The component state relevant to the gate: the displayed suggestion list
and the transcript length at the last successful fetch. -/
structure CoachingPanelState where
  suggestions : List CoachingSuggestion
  lastProcessedLength : Nat
deriving DecidableEq, Repr

/-- `transcript.split((.!?)).filter(Boolean).pop()?.trim() || empty`. -/
def lastStatementOf (transcript : String) : String :=
  let pieces := transcript.split (fun c => c == '.' || c == '!' || c == '?')
  ((((pieces.filter (fun p => p != "")).getLast?).map String.trim).getD "")

/-- `sentiment < 0.4 ? negative : sentiment > 0.6 ? positive : neutral`. -/
def detectSentimentLabel (sentiment : Rat) : Sentiment :=
  if sentiment < (0.4 : Rat) then .negative
  else if sentiment > (0.6 : Rat) then .positive
  else .neutral

/-- `fetchSuggestions` (lines 65-94): inactive or sub-20-character
transcripts bail out, growth under 50 characters since the last successful
fetch bails out, otherwise the service is invoked and a non-empty result
is committed to the panel together with the new processed length. -/
def fetchSuggestions (isActive : Bool) (transcript : String)
    (customerName : String) (debtAmount : Nat) (sentiment : Rat) (language : Lang)
    (panel : CoachingPanelState) (cache : CoachingCache)
    (oracle : Option (List CoachingSuggestion)) :
    CoachingPanelState × CoachingCache × Bool :=
  if !isActive || transcript.length < 20 then (panel, cache, false)
  else if (transcript.length : Int) - (panel.lastProcessedLength : Int) < 50 then
    (panel, cache, false)
  else
    let ctx : ConversationContext :=
      { customerName := customerName, debtAmount := debtAmount,
        transcript := transcript, lastStatement := lastStatementOf transcript,
        detectedSentiment := detectSentimentLabel sentiment, language := language }
    let r := getAICoachingSuggestions cache ctx oracle
    if r.1.length > 0 then
      ({ suggestions := r.1, lastProcessedLength := transcript.length }, r.2.1, r.2.2)
    else (panel, r.2.1, r.2.2)

/-! ## Shared helper lemmas and concrete fixtures -/

theorem foldl_amount_eq_sum (ps : List Promise) (a : Rat) :
    ps.foldl (fun sum p => sum + jsOr0 p.amount) a
      = a + (ps.map (fun p => p.amount.getD 0)).sum := by
  induction ps generalizing a with
  | nil => simp
  | cons p ps ih =>
    rw [List.foldl_cons, ih]
    simp [jsOr0]
    ring

theorem promisesReduceTotal_eq_sum (ps : List Promise) :
    promisesReduceTotal ps = (ps.map (fun p => p.amount.getD 0)).sum := by
  unfold promisesReduceTotal
  rw [foldl_amount_eq_sum]
  ring

theorem mem_dedupFirst_foldl (l acc : List String) (x : String) :
    x ∈ l.foldl (fun a y => if a.contains y then a else a ++ [y]) acc ↔
      x ∈ acc ∨ x ∈ l := by
  induction l generalizing acc with
  | nil => simp
  | cons y ys ih =>
    rw [List.foldl_cons, ih]
    by_cases hy : acc.contains y = true
    · have hmem : y ∈ acc := List.elem_iff.mp hy
      simp only [hy, if_pos]
      constructor
      · rintro (hx | hx)
        · exact Or.inl hx
        · exact Or.inr (List.mem_cons_of_mem _ hx)
      · rintro (hx | hx)
        · exact Or.inl hx
        · rcases List.mem_cons.mp hx with rfl | hx2
          · exact Or.inl hmem
          · exact Or.inr hx2
    · simp only [hy, if_neg, Bool.false_eq_true, not_false_iff, ite_false]
      simp [List.mem_append, List.mem_cons]
      tauto

theorem mem_dedupFirst (l : List String) (x : String) :
    x ∈ dedupFirst l ↔ x ∈ l := by
  unfold dedupFirst
  rw [mem_dedupFirst_foldl]
  simp

def custA : Customer := ⟨"Alice", "0700000001", "ACC-1", 1000⟩

def custB : Customer := ⟨"Bob", "0700000002", "ACC-2", 2000⟩

def callA : Call := ⟨"call-a", custA, 0, none, 42, .active, [], initialExtraction, none, false⟩

def sActive : CallState := ⟨some callA, [], .light⟩

/-! ## C1 -/

/-- C1 (counterexample): the claim says `startCall` fails and does not
replace the active call when one is active.  In the state `sActive`, whose
current call `callA` is active, `startCall` neither fails nor preserves the
active call: it replaces it with a fresh call for the new customer. -/
theorem startCall_active_replaced_counterexample :
    sActive.currentCall = some callA ∧ callA.status = .active ∧
    (startCall custB "call-b" 100 sActive).currentCall ≠ some callA ∧
    (startCall custB "call-b" 100 sActive).currentCall =
      some ⟨"call-b", custB, 100, none, 0, .active, [], initialExtraction, none, false⟩ := by
  refine ⟨rfl, rfl, ?_, rfl⟩
  decide

/-- C1 (amended): `startCall` performs no active-call check.  In every
store state — including one whose current call is active — it constructs a
fresh `Call` with empty extraction, status active and duration 0, installs
it as the current call (replacing whatever was there), and leaves the
history and theme untouched. -/
theorem startCall_always_replaces (customer : Customer) (uuid : String)
    (now : Nat) (s : CallState) :
    (startCall customer uuid now s).currentCall =
      some ⟨uuid, customer, now, none, 0, .active, [], initialExtraction, none, false⟩ ∧
    (startCall customer uuid now s).callHistory = s.callHistory ∧
    (startCall customer uuid now s).theme = s.theme :=
  ⟨rfl, rfl, rfl⟩

/-! ## C10 -/

/-- C10: with no current call, both `endCall` and `endCallWithAI` return
without effect: the whole state is unchanged, so in particular no history
item is appended and no summary is generated. -/
theorem endCall_noop_without_current (x : Option String) (uuid : String)
    (now : Nat) (oracle : Option AIParsedSummary) (uuid2 : String) (now2 : Nat)
    (s : CallState) (h : s.currentCall = none) :
    endCall x uuid now s = s ∧ endCallWithAI oracle uuid2 now2 s = s := by
  constructor <;> simp [endCall, endCallWithAI, h]

theorem endCall_noop_without_current_witness :
    endCall none "u" 3 ⟨none, [], .light⟩ = ⟨none, [], .light⟩ ∧
    endCallWithAI none "u" 3 ⟨none, [], .light⟩ = ⟨none, [], .light⟩ :=
  endCall_noop_without_current none "u" 3 none "u" 3 ⟨none, [], .light⟩ rfl

/-! ## C8 -/

/-- C8: for a transcript shorter than 10 characters `generateAISummary`
skips the remote AI call (flag `false`) and returns the fixed
minimal-session summary with exactly the two generic next actions. -/
theorem generateAISummary_minimal_skip (transcript customerName : String)
    (debtAmount duration : Nat) (ex : ExtractionContext)
    (oracle : Option AIParsedSummary) (h : transcript.length < 10) :
    generateAISummary transcript customerName debtAmount duration ex oracle =
      ({ summary := "Session completed with minimal conversation.",
         nextActions := ["Schedule follow-up call", "Review account status"] },
       false) ∧
    (generateAISummary transcript customerName debtAmount duration ex oracle).1.nextActions.length = 2 := by
  have h1 : generateAISummary transcript customerName debtAmount duration ex oracle =
      ({ summary := "Session completed with minimal conversation.",
         nextActions := ["Schedule follow-up call", "Review account status"] },
       false) := by
    unfold generateAISummary
    rw [if_pos h]
  exact ⟨h1, by simp [h1]⟩

theorem generateAISummary_minimal_skip_witness :
    "".length < 10 ∧
    (generateAISummary "" "Jane" 1000 0 ⟨[], [], [], .neutral⟩ none =
      ({ summary := "Session completed with minimal conversation.",
         nextActions := ["Schedule follow-up call", "Review account status"] },
       false) ∧
     (generateAISummary "" "Jane" 1000 0 ⟨[], [], [], .neutral⟩ none).1.nextActions.length = 2) :=
  ⟨by decide, generateAISummary_minimal_skip "" "Jane" 1000 0 ⟨[], [], [], .neutral⟩ none (by decide)⟩

/-! ## C9 -/

/-- C9: for a completed call, the derived history item (the newly prepended
head of `callHistory`) has `totalPromisedAmount` equal to the sum of the
`amount` fields over all accumulated promises, a missing amount counting as
0 — via `endCall` and via `endCallWithAI` with any oracle outcome. -/
theorem endCall_history_total_promised (s : CallState) (c : Call)
    (summaryText : Option String) (uuid : String) (now : Nat)
    (oracle : Option AIParsedSummary) (uuid2 : String) (now2 : Nat)
    (h : s.currentCall = some c) :
    ((endCall summaryText uuid now s).callHistory.head?).map
        (fun hi => hi.totalPromisedAmount)
      = some ((c.extraction.promises.map (fun p => p.amount.getD 0)).sum) ∧
    ((endCallWithAI oracle uuid2 now2 s).callHistory.head?).map
        (fun hi => hi.totalPromisedAmount)
      = some ((c.extraction.promises.map (fun p => p.amount.getD 0)).sum) := by
  constructor <;>
    simp [endCall, endCallWithAI, h, promisesReduceTotal_eq_sum]

def promiseP1 : Promise := ⟨"p1", some 5000, some "by Friday", "will pay", 0⟩

def promiseP2 : Promise := ⟨"p2", none, none, "will pay later", 1⟩

def callWithPromises : Call :=
  ⟨"call-c", custA, 0, none, 10, .active, [],
   { initialExtraction with promises := [promiseP1, promiseP2] }, none, false⟩

def sWithPromises : CallState := ⟨some callWithPromises, [], .light⟩

theorem endCall_history_total_promised_witness :
    ((endCall none "u" 5 sWithPromises).callHistory.head?).map
        (fun hi => hi.totalPromisedAmount)
      = some ((callWithPromises.extraction.promises.map (fun p => p.amount.getD 0)).sum) ∧
    ((endCallWithAI none "u" 5 sWithPromises).callHistory.head?).map
        (fun hi => hi.totalPromisedAmount)
      = some ((callWithPromises.extraction.promises.map (fun p => p.amount.getD 0)).sum) :=
  endCall_history_total_promised sWithPromises callWithPromises none "u" 5 none "u" 5 rfl

/-! ## C2 -/

/-- C2: when a second coaching trigger fires and the transcript has grown
by fewer than 50 characters since the last successful fetch recorded after
the first trigger, the second `fetchSuggestions` issues no remote call
(flag `false`) and leaves the panel — hence the cached suggestion list —
and the service cache unchanged. -/
theorem coaching_throttle_suppresses_refetch (a1 a2 : Bool)
    (t1 t2 cn1 cn2 : String) (d1 d2 : Nat) (sv1 sv2 : Rat) (lg1 lg2 : Lang)
    (panel : CoachingPanelState) (cache : CoachingCache)
    (o1 o2 : Option (List CoachingSuggestion))
    (h : (t2.length : Int) -
      (((fetchSuggestions a1 t1 cn1 d1 sv1 lg1 panel cache o1).1.lastProcessedLength : Int)) < 50) :
    fetchSuggestions a2 t2 cn2 d2 sv2 lg2
        (fetchSuggestions a1 t1 cn1 d1 sv1 lg1 panel cache o1).1
        (fetchSuggestions a1 t1 cn1 d1 sv1 lg1 panel cache o1).2.1 o2
      = ((fetchSuggestions a1 t1 cn1 d1 sv1 lg1 panel cache o1).1,
         (fetchSuggestions a1 t1 cn1 d1 sv1 lg1 panel cache o1).2.1, false) := by
  generalize (fetchSuggestions a1 t1 cn1 d1 sv1 lg1 panel cache o1).1 = p at h ⊢
  generalize (fetchSuggestions a1 t1 cn1 d1 sv1 lg1 panel cache o1).2.1 = ca
  unfold fetchSuggestions
  by_cases hA : (!a2 || t2.length < 20 : Bool) = true
  · rw [if_pos hA]
  · rw [if_neg hA, if_pos h]

theorem coaching_throttle_suppresses_refetch_witness :
    ((("hello there friend, how are you doing" : String).length : Int) -
      (((fetchSuggestions true "" "J" 5 (1/2) .enKE ⟨[], 0⟩ resetCoachingCache none).1.lastProcessedLength : Int)) < 50) ∧
    fetchSuggestions true "hello there friend, how are you doing" "J" 5 (1/2) .enKE
        (fetchSuggestions true "" "J" 5 (1/2) .enKE ⟨[], 0⟩ resetCoachingCache none).1
        (fetchSuggestions true "" "J" 5 (1/2) .enKE ⟨[], 0⟩ resetCoachingCache none).2.1 none
      = ((fetchSuggestions true "" "J" 5 (1/2) .enKE ⟨[], 0⟩ resetCoachingCache none).1,
         (fetchSuggestions true "" "J" 5 (1/2) .enKE ⟨[], 0⟩ resetCoachingCache none).2.1, false) :=
  ⟨by decide,
   coaching_throttle_suppresses_refetch true true "" "hello there friend, how are you doing"
     "J" "J" 5 5 (1/2) (1/2) .enKE .enKE ⟨[], 0⟩ resetCoachingCache none none (by decide)⟩

/-! ## C3 -/

/-- C3: for a transcript shorter than 20 characters the component gate
bails out before any service interaction: no remote call is issued and
neither the panel suggestions nor the service cache change. -/
theorem coaching_floor_suppresses_fetch (isActive : Bool) (t cn : String)
    (d : Nat) (sv : Rat) (lg : Lang) (panel : CoachingPanelState)
    (cache : CoachingCache) (o : Option (List CoachingSuggestion))
    (h : t.length < 20) :
    fetchSuggestions isActive t cn d sv lg panel cache o = (panel, cache, false) := by
  unfold fetchSuggestions
  have hc : (!isActive || t.length < 20 : Bool) = true := by simp [h]
  rw [if_pos hc]

theorem coaching_floor_suppresses_fetch_witness :
    ("hello".length < 20) ∧
    fetchSuggestions true "hello" "J" 5 (1/2) .enKE ⟨[], 0⟩ resetCoachingCache none
      = (⟨[], 0⟩, resetCoachingCache, false) :=
  ⟨by decide,
   coaching_floor_suppresses_fetch true "hello" "J" 5 (1/2) .enKE ⟨[], 0⟩
     resetCoachingCache none (by decide)⟩

/-! ## C4 -/

theorem sentimentFromCounts_bounds (p n : Nat) :
    5 ≤ (sentimentFromCounts p n).2 ∧ (sentimentFromCounts p n).2 ≤ 95 := by
  unfold sentimentFromCounts
  split_ifs with h1 h2 h3 <;> simp only [min_def, max_def] <;>
    first
    | (split_ifs <;> constructor <;> omega)
    | (constructor <;> omega)

/-- C4: the sentiment score of every analysis pass lies in `[5, 95]` (so in
particular in `[5, 95] ∪ {50}`), and when the positive and negative
keyword counts over chunk plus full transcript are both zero the score is
exactly 50 with a neutral label. -/
theorem analyzeText_sentiment_score_range (t ft u : String) (n : Nat) :
    ∃ sc, (analyzeText t ft u n).extraction.sentimentScore = some sc ∧
      5 ≤ sc ∧ sc ≤ 95 ∧
      (countKeywordHits (jsLower t) POSITIVE_KEYWORDS +
         countKeywordHits (jsLower ft) POSITIVE_KEYWORDS = 0 →
       countKeywordHits (jsLower t) NEGATIVE_KEYWORDS +
         countKeywordHits (jsLower ft) NEGATIVE_KEYWORDS = 0 →
       sc = 50 ∧ (analyzeText t ft u n).extraction.sentiment = some .neutral) := by
  refine ⟨(sentimentFromCounts
      (countKeywordHits (jsLower t) POSITIVE_KEYWORDS +
        countKeywordHits (jsLower ft) POSITIVE_KEYWORDS)
      (countKeywordHits (jsLower t) NEGATIVE_KEYWORDS +
        countKeywordHits (jsLower ft) NEGATIVE_KEYWORDS)).2,
    rfl, (sentimentFromCounts_bounds _ _).1, (sentimentFromCounts_bounds _ _).2, ?_⟩
  intro hp hn
  have e : (analyzeText t ft u n).extraction.sentiment =
      some (sentimentFromCounts
        (countKeywordHits (jsLower t) POSITIVE_KEYWORDS +
          countKeywordHits (jsLower ft) POSITIVE_KEYWORDS)
        (countKeywordHits (jsLower t) NEGATIVE_KEYWORDS +
          countKeywordHits (jsLower ft) NEGATIVE_KEYWORDS)).1 := rfl
  rw [e, hp, hn]
  exact ⟨rfl, rfl⟩

theorem analyzeText_sentiment_score_range_witness :
    ∃ sc, (analyzeText "xyz and stuff" "" "u" 0).extraction.sentimentScore = some sc ∧
      sc = 50 ∧ (analyzeText "xyz and stuff" "" "u" 0).extraction.sentiment = some .neutral := by
  obtain ⟨sc, h1, _, _, h4⟩ := analyzeText_sentiment_score_range "xyz and stuff" "" "u" 0
  obtain ⟨h5, h6⟩ := h4 (by decide) (by decide)
  exact ⟨sc, h1, h5, h6⟩

/-! ## C5 -/

theorem mergeExtraction_promises (cur : CallExtraction) (d : ExtractionDelta) :
    (mergeExtraction cur d).promises = cur.promises ++ d.promises.getD [] := by
  unfold mergeExtraction
  cases d.promises <;> simp

theorem mergeExtraction_objections (cur : CallExtraction) (d : ExtractionDelta) :
    (mergeExtraction cur d).objections = cur.objections ++ d.objections.getD [] := by
  unfold mergeExtraction
  cases d.objections <;> simp

theorem mergeExtraction_agreements (cur : CallExtraction) (d : ExtractionDelta) :
    (mergeExtraction cur d).agreements = cur.agreements ++ d.agreements.getD [] := by
  unfold mergeExtraction
  cases d.agreements <;> simp

theorem mergeExtraction_keyQuotes (cur : CallExtraction) (d : ExtractionDelta) :
    (mergeExtraction cur d).keyQuotes = cur.keyQuotes ++ d.keyQuotes.getD [] := by
  unfold mergeExtraction
  cases d.keyQuotes <;> simp

theorem mergeExtraction_sentiment (cur : CallExtraction) (d : ExtractionDelta) :
    (mergeExtraction cur d).sentiment = d.sentiment.getD cur.sentiment := rfl

theorem mergeExtraction_sentimentScore (cur : CallExtraction) (d : ExtractionDelta) :
    (mergeExtraction cur d).sentimentScore = d.sentimentScore.getD cur.sentimentScore := rfl

theorem mergeExtraction_keywords_mem (cur : CallExtraction) (d : ExtractionDelta)
    (k : String) :
    k ∈ (mergeExtraction cur d).keywords ↔ k ∈ cur.keywords ++ d.keywords.getD [] := by
  unfold mergeExtraction
  cases d.keywords <;> simp [mem_dedupFirst]

/-- C5: applying any sequence of extraction deltas to a state with a
current call merges by pure concatenation for promises, objections,
agreements and key quotes, by last-write-wins replacement for the two
sentiment fields, and by set union (membership-wise) for keywords; in
particular the promise count after N applications is the initial count
plus the sum of the per-delta promise counts — no loss and no
deduplication. -/
theorem updateExtraction_concat_union_lww (s : CallState) (c : Call)
    (ds : List ExtractionDelta) (h : s.currentCall = some c) :
    ∃ c', (ds.foldl (fun st d => updateExtraction d st) s).currentCall = some c' ∧
      c'.extraction.promises =
        c.extraction.promises ++ ds.flatMap (fun d => d.promises.getD []) ∧
      c'.extraction.objections =
        c.extraction.objections ++ ds.flatMap (fun d => d.objections.getD []) ∧
      c'.extraction.agreements =
        c.extraction.agreements ++ ds.flatMap (fun d => d.agreements.getD []) ∧
      c'.extraction.keyQuotes =
        c.extraction.keyQuotes ++ ds.flatMap (fun d => d.keyQuotes.getD []) ∧
      c'.extraction.sentiment =
        ds.foldl (fun cur d => d.sentiment.getD cur) c.extraction.sentiment ∧
      c'.extraction.sentimentScore =
        ds.foldl (fun cur d => d.sentimentScore.getD cur) c.extraction.sentimentScore ∧
      (∀ k, k ∈ c'.extraction.keywords ↔
        k ∈ c.extraction.keywords ++ ds.flatMap (fun d => d.keywords.getD [])) ∧
      c'.extraction.promises.length =
        c.extraction.promises.length +
          (ds.map (fun d => (d.promises.getD []).length)).sum := by
  induction ds generalizing s c with
  | nil =>
    refine ⟨c, h, ?_, ?_, ?_, ?_, rfl, rfl, ?_, ?_⟩ <;> simp
  | cons d ds ih =>
    have hstep : (updateExtraction d s).currentCall =
        some { c with extraction := mergeExtraction c.extraction d } := by
      simp [updateExtraction, h]
    obtain ⟨c', hc, hp, ho, ha, hq, hs, hss, hk, hl⟩ :=
      ih (updateExtraction d s) _ hstep
    refine ⟨c', ?_, ?_, ?_, ?_, ?_, ?_, ?_, ?_, ?_⟩
    · simpa [List.foldl_cons] using hc
    · rw [hp]
      simp [mergeExtraction_promises, List.append_assoc, List.flatMap_cons]
    · rw [ho]
      simp [mergeExtraction_objections, List.append_assoc, List.flatMap_cons]
    · rw [ha]
      simp [mergeExtraction_agreements, List.append_assoc, List.flatMap_cons]
    · rw [hq]
      simp [mergeExtraction_keyQuotes, List.append_assoc, List.flatMap_cons]
    · rw [List.foldl_cons, hs]
      simp [mergeExtraction_sentiment]
    · rw [List.foldl_cons, hss]
      simp [mergeExtraction_sentimentScore]
    · intro k
      rw [hk k]
      simp only [List.mem_append, mergeExtraction_keywords_mem, List.flatMap_cons,
        or_assoc]
    · rw [hl]
      simp [mergeExtraction_promises, List.length_append]
      try omega

def promiseQ1 : Promise := ⟨"q1", some 100, none, "can pay 100", 2⟩

def promiseQ2 : Promise := ⟨"q2", none, none, "will pay", 3⟩

def promiseQ3 : Promise := ⟨"q3", some 50, none, "promise", 4⟩

def delta1 : ExtractionDelta :=
  { promises := some [promiseQ1], sentiment := some .positive,
    sentimentScore := some 80, keywords := some ["KES 100"] }

def delta2 : ExtractionDelta :=
  { promises := some [promiseQ2, promiseQ3], keywords := some ["KES 100", "KES 50"] }

theorem updateExtraction_concat_union_lww_witness :
    ∃ c', ([delta1, delta2].foldl (fun st d => updateExtraction d st) sActive).currentCall
        = some c' ∧
      c'.extraction.promises.length = 3 := by
  obtain ⟨c', hc, hp, ho, ha, hq, hs, hss, hk, hl⟩ :=
    updateExtraction_concat_union_lww sActive callA [delta1, delta2] rfl
  refine ⟨c', hc, ?_⟩
  rw [hl]
  decide

/-! ## C6 -/

/-- C6: whenever a promise keyword occurs in the lower-cased chunk,
`analyzeText` emits exactly one promise whose description is the first 100
characters of the chunk (length at most 100), whose amount is the parse of
the first amount-regex match (absent when the regex does not match) and
whose due date is the first date-regex match (absent when it does not
match), and reports significant content. -/
theorem analyzeText_promise_singleton (t ft u : String) (n : Nat)
    (h : hasPromiseKeyword (jsLower t) = true) :
    (analyzeText t ft u n).extraction.promises =
      some [{ id := u, amount := extractAmount t, dueDate := dateFirstMatch t,
              description := jsSlice t 0 100, timestamp := n }] ∧
    (jsSlice t 0 100).length ≤ 100 ∧
    (analyzeText t ft u n).hasSignificantContent = true := by
  refine ⟨?_, ?_, ?_⟩
  · simp [analyzeText, h]
  · have e : (jsSlice t 0 100).length = ((t.data.drop 0).take 100).length := rfl
    rw [e, List.length_take]
    omega
  · simp [analyzeText, h]

def scenarioPromiseText : String := "I promise I will pay KES 5,000 by Friday"

theorem analyzeText_promise_singleton_witness :
    hasPromiseKeyword (jsLower scenarioPromiseText) = true ∧
    ((analyzeText scenarioPromiseText "" "u" 0).extraction.promises =
      some [{ id := "u", amount := extractAmount scenarioPromiseText,
              dueDate := dateFirstMatch scenarioPromiseText,
              description := jsSlice scenarioPromiseText 0 100, timestamp := 0 }] ∧
     (jsSlice scenarioPromiseText 0 100).length ≤ 100 ∧
     (analyzeText scenarioPromiseText "" "u" 0).hasSignificantContent = true) :=
  ⟨by decide, analyzeText_promise_singleton scenarioPromiseText "" "u" 0 (by decide)⟩

/-! ## C7 -/

def scenarioObjectionText : String := "I lost my job and can" ++ ap ++ "t afford this"

/-- C7: whenever an objection keyword occurs in the lower-cased chunk,
`analyzeText` emits exactly one objection, typed and weighted by the
first-matching rule in the priority order job loss, then medical, then
financial hardship, then dispute, then other; and on the chunk
`I lost my job and cannot afford this` (with an apostrophe) the objection
is job loss with high severity. -/
theorem analyzeText_objection_priority (t ft u : String) (n : Nat)
    (h : (findObjectionKeyword (jsLower t)).isSome = true) :
    (∃ o, (analyzeText t ft u n).extraction.objections = some [o] ∧
      o.description = jsSlice t 0 100 ∧
      o.type = (objectionTypeSeverity (jsLower t)).1 ∧
      o.severity = (objectionTypeSeverity (jsLower t)).2 ∧
      ((includesS (jsLower t) "job" || includesS (jsLower t) "unemployed") = true →
        o.type = .job_loss ∧ o.severity = .high) ∧
      ((includesS (jsLower t) "job" || includesS (jsLower t) "unemployed") = false →
       (includesS (jsLower t) "medical" || includesS (jsLower t) "hospital" ||
        includesS (jsLower t) "sick") = true →
        o.type = .medical ∧ o.severity = .high) ∧
      ((includesS (jsLower t) "job" || includesS (jsLower t) "unemployed") = false →
       (includesS (jsLower t) "medical" || includesS (jsLower t) "hospital" ||
        includesS (jsLower t) "sick") = false →
       (includesS (jsLower t) "afford" || includesS (jsLower t) "hardship") = true →
        o.type = .financial_hardship ∧ o.severity = .medium) ∧
      ((includesS (jsLower t) "job" || includesS (jsLower t) "unemployed") = false →
       (includesS (jsLower t) "medical" || includesS (jsLower t) "hospital" ||
        includesS (jsLower t) "sick") = false →
       (includesS (jsLower t) "afford" || includesS (jsLower t) "hardship") = false →
       (includesS (jsLower t) "dispute" || includesS (jsLower t) "not my" ||
        includesS (jsLower t) "wrong") = true →
        o.type = .dispute ∧ o.severity = .high) ∧
      ((includesS (jsLower t) "job" || includesS (jsLower t) "unemployed") = false →
       (includesS (jsLower t) "medical" || includesS (jsLower t) "hospital" ||
        includesS (jsLower t) "sick") = false →
       (includesS (jsLower t) "afford" || includesS (jsLower t) "hardship") = false →
       (includesS (jsLower t) "dispute" || includesS (jsLower t) "not my" ||
        includesS (jsLower t) "wrong") = false →
        o.type = .other ∧ o.severity = .medium)) ∧
    (analyzeText t ft u n).hasSignificantContent = true ∧
    (∃ o2, (analyzeText scenarioObjectionText ft u n).extraction.objections = some [o2] ∧
      o2.type = .job_loss ∧ o2.severity = .high) := by
  obtain ⟨kw, hkw⟩ := Option.isSome_iff_exists.mp h
  refine ⟨?_, ?_, ?_⟩
  · refine ⟨⟨u, (objectionTypeSeverity (jsLower t)).1, jsSlice t 0 100,
      (objectionTypeSeverity (jsLower t)).2, n⟩, ?_, rfl, rfl, rfl, ?_, ?_, ?_, ?_, ?_⟩
    · simp [analyzeText, hkw]
    · intro h1
      constructor <;> simp [objectionTypeSeverity, h1]
    · intro h1 h2
      constructor <;> simp [objectionTypeSeverity, h1, h2]
    · intro h1 h2 h3
      constructor <;> simp [objectionTypeSeverity, h1, h2, h3]
    · intro h1 h2 h3 h4
      constructor <;> simp [objectionTypeSeverity, h1, h2, h3, h4]
    · intro h1 h2 h3 h4
      constructor <;> simp [objectionTypeSeverity, h1, h2, h3, h4]
  · simp [analyzeText, h]
  · have hfind : findObjectionKeyword (jsLower scenarioObjectionText) =
        some ("can" ++ ap ++ "t afford") := by decide
    refine ⟨⟨u, (objectionTypeSeverity (jsLower scenarioObjectionText)).1,
      jsSlice scenarioObjectionText 0 100,
      (objectionTypeSeverity (jsLower scenarioObjectionText)).2, n⟩, ?_, ?_, ?_⟩
    · simp [analyzeText, hfind]
    · show (objectionTypeSeverity (jsLower scenarioObjectionText)).1 = .job_loss
      decide
    · show (objectionTypeSeverity (jsLower scenarioObjectionText)).2 = .high
      decide

theorem analyzeText_objection_priority_witness :
    (findObjectionKeyword (jsLower scenarioObjectionText)).isSome = true ∧
    ∃ o2, (analyzeText scenarioObjectionText "" "w" 1).extraction.objections = some [o2] ∧
      o2.type = .job_loss ∧ o2.severity = .high := by
  refine ⟨by decide, ?_⟩
  obtain ⟨-, -, hsc⟩ := analyzeText_objection_priority scenarioObjectionText "" "w" 1 (by decide)
  exact hsc
